import Mathlib

/-!
Verification of the record-store layer of the Expense-tracker app
(`src/app.py`).

The app persists flat records in Google-Sheets worksheets.  A worksheet is
read through `gspread`'s `get_all_values()`, which returns every cell as a
string; we therefore model a worksheet as a list of rows of strings, and a
pandas `DataFrame` (as produced by `ws_to_df`) as a header (column names)
plus a list of string rows.  All operations below are translated directly
from `src/app.py`.
-/

namespace ExpenseTracker

/-- A worksheet's contents as returned by `ws.get_all_values()`: every row,
header included, with each cell already coerced to a string. -/
abbrev Sheet := List (List String)

/-- A pandas `DataFrame` as built by `ws_to_df`: column names plus data rows.
Cells are strings because they come from `get_all_values()`. -/
structure DataFrame where
  columns : List String
  rows : List (List String)
deriving Repr, DecidableEq

/-- `ws_to_df` (src/app.py lines 53–69): fetch all values; if the sheet is
completely blank return an empty frame; otherwise the first row is the
header and the remaining rows are the data. -/
def ws_to_df (ws : Sheet) : DataFrame :=
  match ws with
  | [] => ⟨[], []⟩
  | headers :: rest => ⟨headers, rest⟩

/-- `df_to_ws` (src/app.py lines 72–76): clear the worksheet, append the
column names as the first row, then append every data row. -/
def df_to_ws (df : DataFrame) : Sheet :=
  df.columns :: df.rows

/-- `get_or_create_worksheet` (src/app.py lines 34–42): return the existing
worksheet, or create it containing only the header row. -/
def get_or_create_worksheet (existing : Option Sheet) (headers : List String) : Sheet :=
  match existing with
  | some ws => ws
  | none => [headers]

/-- The shared append pattern (src/app.py lines 188–192, 212–214, 242–244):
`df = ws_to_df(ws); df.loc[len(df)] = row; df_to_ws(df, ws)`. -/
def appendRecord (ws : Sheet) (row : List String) : Sheet :=
  df_to_ws ⟨(ws_to_df ws).columns, (ws_to_df ws).rows ++ [row]⟩

/-- The edit branch of `show_table_with_actions` (src/app.py lines 127–140):
`df.loc[i] = new_values; df_to_ws(df, ws)` — row `i` is replaced verbatim by
the values typed into the edit form. -/
def editRecord (ws : Sheet) (i : Nat) (newValues : List String) : Sheet :=
  df_to_ws ⟨(ws_to_df ws).columns, (ws_to_df ws).rows.set i newValues⟩

/-- The delete branch of `show_table_with_actions` (src/app.py lines 143–147):
`df = df.drop(index=i).reset_index(drop=True); df_to_ws(df, ws)`. -/
def deleteRecord (ws : Sheet) (i : Nat) : Sheet :=
  df_to_ws ⟨(ws_to_df ws).columns, (ws_to_df ws).rows.eraseIdx i⟩

/-- A Python `datetime.date`. -/
structure PyDate where
  year : Nat
  month : Nat
  day : Nat
deriving Repr, DecidableEq

/-- Zero-pad a number to two digits, as Python's ISO date formatting does. -/
def pad2 (n : Nat) : String :=
  if n < 10 then "0" ++ toString n else toString n

/-- Zero-pad a number to four digits, as Python's ISO date formatting does. -/
def pad4 (n : Nat) : String :=
  if n < 10 then "000" ++ toString n
  else if n < 100 then "00" ++ toString n
  else if n < 1000 then "0" ++ toString n
  else toString n

/-- `str(d)` for a Python date: ISO `YYYY-MM-DD` (src/app.py line 190). -/
def dateToString (d : PyDate) : String :=
  pad4 d.year ++ "-" ++ pad2 d.month ++ "-" ++ pad2 d.day

/-- Full English month name, as produced by `strftime("%B")`. -/
def monthName : Nat → String
  | 1 => "January"
  | 2 => "February"
  | 3 => "March"
  | 4 => "April"
  | 5 => "May"
  | 6 => "June"
  | 7 => "July"
  | 8 => "August"
  | 9 => "September"
  | 10 => "October"
  | 11 => "November"
  | 12 => "December"
  | _ => ""

/-- `d.strftime("%B %Y")` (src/app.py line 190): full month name, a space,
and the 4-digit year. -/
def strftimeBY (d : PyDate) : String :=
  monthName d.month ++ " " ++ pad4 d.year

/-- Python's `str.strip()`: remove leading and trailing whitespace. -/
def pyStrip (s : String) : String :=
  ⟨((s.data.dropWhile Char.isWhitespace).reverse.dropWhile Char.isWhitespace).reverse⟩

/-- The expense submission handler (src/app.py lines 187–192): if the form
was submitted and the amount is positive, build the row (date as ISO string,
amount, category, notes, and the month recomputed from the date) and append
it; otherwise nothing is written. -/
def addExpense (ws : Sheet) (submit : Bool) (expDate : PyDate) (amount : ℚ)
    (category notes : String) : Sheet :=
  if submit ∧ 0 < amount then
    appendRecord ws [dateToString expDate, toString amount, category, notes,
      strftimeBY expDate]
  else ws

/-- The medicine submission handler (src/app.py lines 211–214): requires the
medicine name to be non-blank after stripping whitespace. -/
def addMedicine (ws : Sheet) (submit : Bool) (medDate : PyDate) (medName : String)
    (quantity : Nat) (cost : ℚ) (notes : String) : Sheet :=
  if submit ∧ pyStrip medName ≠ "" then
    appendRecord ws [dateToString medDate, medName, toString quantity,
      toString cost, notes]
  else ws

/-- The investment submission handler (src/app.py lines 241–244): requires a
positive amount. -/
def addInvestment (ws : Sheet) (submit : Bool) (invDate : PyDate) (invType : String)
    (amount : ℚ) (frequency notes : String) : Sheet :=
  if submit ∧ 0 < amount then
    appendRecord ws [dateToString invDate, invType, toString amount, frequency,
      notes]
  else ws

/-- Pandas `df.empty`: true when the frame has no rows or no columns. -/
def dfEmpty (df : DataFrame) : Bool :=
  df.rows.isEmpty || df.columns.isEmpty

/-- Pandas `df[name].tolist()`: the values of the column called `name`. -/
def dfColumn (df : DataFrame) (name : String) : List String :=
  df.rows.map (fun r => r.getD (df.columns.indexOf name) "")

/-- The default expense categories (src/app.py line 81). -/
def defaultExpenseCategories : List String :=
  ["Food", "Transport", "Shopping", "Donation", "Bills", "Other"]

/-- The default investment types (src/app.py line 92). -/
def defaultInvestmentCategories : List String :=
  ["Salary", "SIP", "FD", "Stocks", "Chit Fund", "Other"]

/-- `load_expense_categories` (src/app.py lines 78–87): read the category
sheet; if the frame is empty, make sure the header row exists, append the
six defaults and return them; otherwise return the stored `Category` column.
Returns the category list together with the worksheet after any seeding. -/
def load_expense_categories (ws : Sheet) : List String × Sheet :=
  let df := ws_to_df ws
  if dfEmpty df then
    let ws1 := if ws.headD [] = [] then ws ++ [["Category"]] else ws
    let ws2 := ws1 ++ defaultExpenseCategories.map (fun c => [c])
    (defaultExpenseCategories, ws2)
  else
    (dfColumn df "Category", ws)

/-- `load_investment_categories` (src/app.py lines 89–98): same shape as
`load_expense_categories`, over the `Type` column. -/
def load_investment_categories (ws : Sheet) : List String × Sheet :=
  let df := ws_to_df ws
  if dfEmpty df then
    let ws1 := if ws.headD [] = [] then ws ++ [["Type"]] else ws
    let ws2 := ws1 ++ defaultInvestmentCategories.map (fun c => [c])
    (defaultInvestmentCategories, ws2)
  else
    (dfColumn df "Type", ws)

/-- The "Add Category" / "Add Investment Type" button handlers
(src/app.py lines 173–177 and 228–232): if the typed value is non-blank
after stripping and the raw value is not already among the loaded
categories, append the raw (untrimmed) value as a new row. -/
def addCategory (ws : Sheet) (categories : List String) (newCat : String) : Sheet :=
  if pyStrip newCat ≠ "" ∧ newCat ∉ categories then ws ++ [[newCat]] else ws

/-- The add-category operation as the spec states it: the value stored is
the trimmed value (second definition, for comparison with `addCategory`). -/
def addCategorySpec (ws : Sheet) (categories : List String) (newCat : String) : Sheet :=
  if pyStrip newCat ≠ "" ∧ newCat ∉ categories then ws ++ [[pyStrip newCat]] else ws

/-- Modelled from the spec: an investment record as consumed by the monthly
summary calculator of spec §4.3.  The calculator itself lives in a repository
variant that is not present under `src/`. -/
structure SummaryInvestment where
  itype : String
  amount : ℚ
  month : String

/-- Modelled from the spec: an expense record as consumed by the monthly
summary calculator of spec §4.3 (code not present under `src/`). -/
structure SummaryExpense where
  amount : ℚ
  month : String

/-- Modelled from the spec: `totalSalary` = sum of investment amounts where
type == "Salary" and month matches (spec §4.3; code not present under
`src/`). -/
def totalSalary (invs : List SummaryInvestment) (m : String) : ℚ :=
  ((invs.filter (fun r => r.itype == "Salary" && r.month == m)).map
    (fun r => r.amount)).sum

/-- Modelled from the spec: `totalInvestments` = sum of investment amounts
where type != "Salary" and month matches (spec §4.3; code not present under
`src/`). -/
def totalInvestments (invs : List SummaryInvestment) (m : String) : ℚ :=
  ((invs.filter (fun r => r.itype != "Salary" && r.month == m)).map
    (fun r => r.amount)).sum

/-- Modelled from the spec: `totalExpenses` = sum of expense amounts with
matching month (spec §4.3; code not present under `src/`). -/
def totalExpenses (exps : List SummaryExpense) (m : String) : ℚ :=
  ((exps.filter (fun r => r.month == m)).map (fun r => r.amount)).sum

/-- Modelled from the spec: `savings` = totalSalary − (totalInvestments +
totalExpenses) (spec §4.3; code not present under `src/`). -/
def savings (invs : List SummaryInvestment) (exps : List SummaryExpense)
    (m : String) : ℚ :=
  totalSalary invs m - (totalInvestments invs m + totalExpenses exps m)

/-- C1: for every collection and every record `r`, appending `r` (read the
collection, add `r` as a new last row, rewrite the collection) and then
reading the collection back yields a sequence whose last element is `r` and
whose preceding elements are exactly the previously stored records in their
original order. -/
theorem append_then_read (ws : Sheet) (r : List String) :
    (ws_to_df (appendRecord ws r)).rows = (ws_to_df ws).rows ++ [r] ∧
    (ws_to_df (appendRecord ws r)).rows.getLast? = some r ∧
    (ws_to_df (appendRecord ws r)).rows.dropLast = (ws_to_df ws).rows :=
  ⟨rfl, List.getLast?_concat _, List.dropLast_concat⟩

/-- C3: round-trip — for every header and every sequence of N records,
rewriting the collection with the N records (`df_to_ws`) and reading it back
(`ws_to_df`) yields exactly N records with identical field values. -/
theorem rewrite_then_read_roundtrip (headers : List String)
    (records : List (List String)) :
    ws_to_df (df_to_ws ⟨headers, records⟩) = ⟨headers, records⟩ ∧
    (ws_to_df (df_to_ws ⟨headers, records⟩)).rows.length = records.length :=
  ⟨rfl, rfl⟩

/-- C4: for a collection of n records and a valid position i, deleting the
record at position i and reading back yields n − 1 records, namely the
remaining records in their original relative order. -/
theorem delete_then_read (ws : Sheet) (i : Nat)
    (h : i < (ws_to_df ws).rows.length) :
    (ws_to_df (deleteRecord ws i)).rows.length = (ws_to_df ws).rows.length - 1 ∧
    (ws_to_df (deleteRecord ws i)).rows =
      (ws_to_df ws).rows.take i ++ (ws_to_df ws).rows.drop (i + 1) := by
  have hrows : (ws_to_df (deleteRecord ws i)).rows
      = (ws_to_df ws).rows.eraseIdx i := rfl
  constructor
  · rw [hrows, List.length_eraseIdx]
    simp [h]
  · rw [hrows, List.eraseIdx_eq_take_drop_succ]

/-- Witness for C4: deleting position 0 from a two-record collection leaves
one record, the former second one. -/
theorem delete_then_read_witness :
    0 < (ws_to_df [["H"], ["a"], ["b"]]).rows.length ∧
    (ws_to_df (deleteRecord [["H"], ["a"], ["b"]] 0)).rows.length = 1 ∧
    (ws_to_df (deleteRecord [["H"], ["a"], ["b"]] 0)).rows = [["b"]] := by
  have h := delete_then_read [["H"], ["a"], ["b"]] 0 (by decide)
  exact ⟨by decide, h.1.trans (by decide), h.2.trans (by decide)⟩

/-- C5: reading a collection that has been initialized (header row present)
but holds no data rows yields an empty record sequence that still carries the
declared field keys as column names. -/
theorem read_initialized_empty_collection (headers : List String) :
    (ws_to_df (get_or_create_worksheet none headers)).columns = headers ∧
    (ws_to_df (get_or_create_worksheet none headers)).rows = [] :=
  ⟨rfl, rfl⟩

/-- C6: the monthly summary is savings = totalSalary − (totalInvestments +
totalExpenses), and on the spec's example (Salary 50000, SIP 5000, expenses
12000, all in "June 2024") it yields totalSalary = 50000,
totalInvestments = 5000, totalExpenses = 12000, savings = 33000. -/
theorem monthly_summary_example :
    (∀ invs exps m, savings invs exps m =
      totalSalary invs m - (totalInvestments invs m + totalExpenses exps m)) ∧
    totalSalary [⟨"Salary", 50000, "June 2024"⟩, ⟨"SIP", 5000, "June 2024"⟩]
      "June 2024" = 50000 ∧
    totalInvestments [⟨"Salary", 50000, "June 2024"⟩, ⟨"SIP", 5000, "June 2024"⟩]
      "June 2024" = 5000 ∧
    totalExpenses [⟨12000, "June 2024"⟩] "June 2024" = 12000 ∧
    savings [⟨"Salary", 50000, "June 2024"⟩, ⟨"SIP", 5000, "June 2024"⟩]
      [⟨12000, "June 2024"⟩] "June 2024" = 33000 := by
  have h1 : (("Salary" : String) == "Salary") = true := rfl
  have h2 : (("SIP" : String) == "Salary") = false := rfl
  have h3 : (("June 2024" : String) == "June 2024") = true := rfl
  refine ⟨fun _ _ _ => rfl, ?_, ?_, ?_, ?_⟩
  · simp [totalSalary, List.filter, h1, h2, h3]
  · simp [totalInvestments, List.filter, h1, h2, h3]
  · simp [totalExpenses, List.filter, h3]
  · simp [savings, totalSalary, totalInvestments, totalExpenses, List.filter,
      h1, h2, h3]
    norm_num

/-- C7: loading either category kind on an empty backing collection (fully
blank, or header-only) returns exactly the documented 6-entry default list,
writes those defaults back to storage, and a second load returns the same 6
entries without changing storage again. -/
theorem category_load_seeds_defaults :
    (load_expense_categories []).1 = defaultExpenseCategories ∧
    (load_expense_categories [["Category"]]).1 = defaultExpenseCategories ∧
    (load_expense_categories []).2
      = [["Category"]] ++ defaultExpenseCategories.map (fun c => [c]) ∧
    (load_expense_categories [["Category"]]).2
      = [["Category"]] ++ defaultExpenseCategories.map (fun c => [c]) ∧
    load_expense_categories (load_expense_categories []).2
      = (defaultExpenseCategories, (load_expense_categories []).2) ∧
    (load_investment_categories []).1 = defaultInvestmentCategories ∧
    (load_investment_categories [["Type"]]).1 = defaultInvestmentCategories ∧
    (load_investment_categories []).2
      = [["Type"]] ++ defaultInvestmentCategories.map (fun c => [c]) ∧
    (load_investment_categories [["Type"]]).2
      = [["Type"]] ++ defaultInvestmentCategories.map (fun c => [c]) ∧
    load_investment_categories (load_investment_categories []).2
      = (defaultInvestmentCategories, (load_investment_categories []).2) := by
  decide

/-- C9: a form submission that fails trivial validation (non-positive
expense or investment amount, or a medicine name blank after trimming)
performs no append or rewrite: the stored collection is unchanged. -/
theorem failed_validation_no_write (ws : Sheet) (d : PyDate) (amount cost : ℚ)
    (category notes medName invType frequency : String) (quantity : Nat) :
    (amount ≤ 0 → addExpense ws true d amount category notes = ws) ∧
    (pyStrip medName = "" →
      addMedicine ws true d medName quantity cost notes = ws) ∧
    (amount ≤ 0 → addInvestment ws true d invType amount frequency notes = ws) := by
  refine ⟨fun h => ?_, fun h => ?_, fun h => ?_⟩
  · simp only [addExpense]
    rw [if_neg]
    rintro ⟨-, h2⟩
    exact absurd h2 (not_lt.mpr h)
  · simp only [addMedicine]
    rw [if_neg]
    rintro ⟨-, h2⟩
    exact h2 h
  · simp only [addInvestment]
    rw [if_neg]
    rintro ⟨-, h2⟩
    exact absurd h2 (not_lt.mpr h)

/-- Witness for C9: a zero-amount expense, a whitespace-only medicine name
and a zero-amount investment all leave the worksheet unchanged. -/
theorem failed_validation_no_write_witness :
    addExpense [["X"]] true ⟨2024, 6, 1⟩ 0 "Food" "" = [["X"]] ∧
    addMedicine [["X"]] true ⟨2024, 6, 1⟩ "   " 1 5 "" = [["X"]] ∧
    addInvestment [["X"]] true ⟨2024, 6, 1⟩ "SIP" 0 "Monthly" "" = [["X"]] := by
  have h := failed_validation_no_write [["X"]] ⟨2024, 6, 1⟩ 0 5 "Food" "" "   "
    "SIP" "Monthly" 1
  exact ⟨h.1 le_rfl, h.2.1 (by decide), h.2.2 le_rfl⟩

/-- C10: editing the record at position i (assign the edited values to row
i, then rewrite the whole collection) preserves the collection's header and
length, and leaves every record at a position other than i unchanged. -/
theorem edit_frame_effect (ws : Sheet) (i : Nat) (newValues : List String) :
    (ws_to_df (editRecord ws i newValues)).columns = (ws_to_df ws).columns ∧
    (ws_to_df (editRecord ws i newValues)).rows.length
      = (ws_to_df ws).rows.length ∧
    ∀ j, j ≠ i →
      (ws_to_df (editRecord ws i newValues)).rows[j]? = (ws_to_df ws).rows[j]? :=
  ⟨rfl, List.length_set _ _ _, fun _ hj => List.getElem?_set_ne (Ne.symm hj)⟩

/-- Witness for C10: editing row 0 of a two-record collection leaves row 1
as it was. -/
theorem edit_frame_effect_witness :
    (ws_to_df (editRecord [["H"], ["a"], ["b"]] 0 ["c"])).rows[1]? = some ["b"] := by
  have h := (edit_frame_effect [["H"], ["a"], ["b"]] 0 ["c"]).2.2 1 (by decide)
  rw [h]
  decide

/-- C2 counterexample: starting from an appended expense for 2024-03-05, an
edit that changes the `Date` cell to "2024-04-05" but leaves the `Month`
cell alone stores `Month` = "March 2024", which is not the formatted form
"April 2024" of the new date — so the stored month does not always equal
the formatted form of the stored date. -/
theorem month_stale_after_edit :
    (ws_to_df (editRecord
        (addExpense [["Date", "Amount", "Category", "Notes", "Month"]] true
          ⟨2024, 3, 5⟩ 100 "Food" "")
        0 ["2024-04-05", "100", "Food", "", "March 2024"])).rows[0]? =
      some ["2024-04-05", "100", "Food", "", "March 2024"] ∧
    dateToString ⟨2024, 4, 5⟩ = "2024-04-05" ∧
    strftimeBY ⟨2024, 4, 5⟩ = "April 2024" ∧
    ("March 2024" : String) ≠ "April 2024" := by
  decide

/-- C2 amended: on the append path the stored expense row does have its
`Month` field recomputed from `date` as "full month name + 4-digit year"
(the edit path, by contrast, writes all fields verbatim and can leave a
stale month). -/
theorem month_recomputed_on_append (ws : Sheet) (d : PyDate) (amount : ℚ)
    (category notes : String) (h : 0 < amount) :
    (ws_to_df (addExpense ws true d amount category notes)).rows.getLast? =
      some [dateToString d, toString amount, category, notes, strftimeBY d] := by
  have heq : addExpense ws true d amount category notes
      = appendRecord ws
          [dateToString d, toString amount, category, notes, strftimeBY d] := by
    simp [addExpense, h]
  rw [heq]
  exact List.getLast?_concat _

/-- Witness for C2's amended theorem: appending a 100-rupee expense dated
2024-03-05 stores the row with `Month` = "March 2024". -/
theorem month_recomputed_on_append_witness :
    (0 : ℚ) < 100 ∧
    (ws_to_df (addExpense [["Date", "Amount", "Category", "Notes", "Month"]]
        true ⟨2024, 3, 5⟩ 100 "Food" "")).rows.getLast? =
      some ["2024-03-05", "100", "Food", "", "March 2024"] := by
  refine ⟨by norm_num, ?_⟩
  have h := month_recomputed_on_append
    [["Date", "Amount", "Category", "Notes", "Month"]] ⟨2024, 3, 5⟩ 100 "Food" ""
    (by norm_num)
  rw [h]
  decide

/-- C8 counterexample: adding " Food " (with spaces) when "Food" is already
a category appends the raw string " Food ", not the trimmed "Food" the spec
describes — `addCategory` and the spec's `addCategorySpec` disagree here. -/
theorem add_category_trims_counterexample :
    addCategory [["Category"], ["Food"]] ["Food"] " Food "
      = [["Category"], ["Food"], [" Food "]] ∧
    addCategorySpec [["Category"], ["Food"]] ["Food"] " Food "
      = [["Category"], ["Food"], ["Food"]] ∧
    addCategory [["Category"], ["Food"]] ["Food"] " Food "
      ≠ addCategorySpec [["Category"], ["Food"]] ["Food"] " Food " := by
  decide

/-- C8 amended: `add` appends exactly when the value is non-blank after
trimming and the raw (untrimmed) value is not already present under exact
string match; otherwise the collection is unchanged and no error is raised.
The value stored is the raw, untrimmed value. -/
theorem add_category_append_iff (header : List String)
    (rows : List (List String)) (categories : List String) (v : String) :
    (pyStrip v = "" ∨ v ∈ categories →
      addCategory (header :: rows) categories v = header :: rows) ∧
    (pyStrip v ≠ "" → v ∉ categories →
      (ws_to_df (addCategory (header :: rows) categories v)).columns = header ∧
      (ws_to_df (addCategory (header :: rows) categories v)).rows
        = rows ++ [[v]]) := by
  constructor
  · intro h
    simp only [addCategory]
    rw [if_neg]
    rintro ⟨h1, h2⟩
    rcases h with h | h
    · exact h1 h
    · exact h2 h
  · intro h1 h2
    simp only [addCategory, if_pos (And.intro h1 h2)]
    exact ⟨rfl, rfl⟩

/-- Witness for C8's amended theorem: adding an existing category is a
no-op, and adding a new non-blank one appends it as the last row. -/
theorem add_category_append_iff_witness :
    addCategory [["Category"], ["Food"]] ["Food"] "Food"
      = [["Category"], ["Food"]] ∧
    (ws_to_df (addCategory [["Category"], ["Food"]] ["Food"] "Tea")).rows
      = [["Food"], ["Tea"]] := by
  have h1 := (add_category_append_iff ["Category"] [["Food"]] ["Food"] "Food").1
    (Or.inr (by decide))
  have h2 := (add_category_append_iff ["Category"] [["Food"]] ["Food"] "Tea").2
    (by decide) (by decide)
  exact ⟨h1, h2.2⟩

end ExpenseTracker
